import Mathlib

/-!
Shallow embedding of the Presales RFP Compliance Engine of `src/services/presales.py`
(repository haricode-hub/rfp-ofsaa): the evidence cache, the web-evidence
retriever (`exa_search`), the response parser / remark composer
(`extract_column_values`) and the row processor (`process_row_async`),
together with theorems settling the frozen specification claims.

Python strings are modelled by `String`, Python dicts by association lists,
and the asynchronous functions by total Lean functions over an explicit
outcome of the external calls (the external search tool and the LLM are
black boxes whose observable behaviour is a parameter).  The Python string
primitives (`lower`, `upper`, `strip`, `splitlines`, `split`, `join`,
`startswith`, slicing, substring containment) are modelled by structurally
recursive functions over the character list of a `String`, so that every
definition evaluates inside the kernel.
-/

set_option maxRecDepth 8000

/-- Python's `pat in s` substring test on lists of characters. -/
def listIsInfixOf (pat : List Char) : List Char → Bool
  | [] => pat.isEmpty
  | c :: t => pat.isPrefixOf (c :: t) || listIsInfixOf pat t

/-- Python's `pat in s` substring containment test for strings. -/
def strContains (s pat : String) : Bool := listIsInfixOf pat.toList s.toList

/-- The characters Python's `str.strip()` / `str.split()` / `\s` treat as
whitespace. -/
def pyIsSpace (c : Char) : Bool :=
  c = ' ' || c = '\t' || c = '\n' || c = '\r' || c = '\x0b' || c = '\x0c'

/-- Python's `s.lower()` (ASCII case mapping, as used by the source). -/
def pyLower (s : String) : String := String.mk (s.toList.map Char.toLower)

/-- Python's `s.upper()` (ASCII case mapping, as used by the source). -/
def pyUpper (s : String) : String := String.mk (s.toList.map Char.toUpper)

/-- Python's `s.strip()`: remove leading and trailing whitespace. -/
def pyStrip (s : String) : String :=
  String.mk (((s.toList.dropWhile pyIsSpace).reverse.dropWhile pyIsSpace).reverse)

/-- Python's `s.startswith(pre)`. -/
def pyStartsWith (s pre : String) : Bool := pre.toList.isPrefixOf s.toList

/-- Helper for `pySplitLines`: split a character list at newline characters. -/
def splitLinesAux (acc : List Char) : List Char → List String
  | [] => [String.mk acc.reverse]
  | c :: cs =>
    if c = '\n' then String.mk acc.reverse :: splitLinesAux [] cs
    else splitLinesAux (c :: acc) cs

/-- Python's `text.splitlines()` as consumed by the parser loop: split at
newline characters.  (A final trailing empty piece, or a `'\r'` left at a
line end, is immaterial: the loop strips every line and skips blank ones.) -/
def pySplitLines (s : String) : List String := splitLinesAux [] s.toList

/-- Helper for `pyWords`: split a character list on whitespace runs. -/
def pyWordsAux (acc : List Char) : List Char → List String
  | [] => if acc.isEmpty then [] else [String.mk acc.reverse]
  | c :: cs =>
    if pyIsSpace c then
      if acc.isEmpty then pyWordsAux [] cs
      else String.mk acc.reverse :: pyWordsAux [] cs
    else pyWordsAux (c :: acc) cs

/-- Python's `s.split()` with no separator: split on whitespace runs,
dropping empty pieces. -/
def pyWords (s : String) : List String := pyWordsAux [] s.toList

/-- Python's `sep.join(l)`. -/
def pyJoin (sep : String) : List String → String
  | [] => ""
  | [x] => x
  | x :: y :: xs => x ++ sep ++ pyJoin sep (y :: xs)

/-- Python's character slicing `s[:n]`. -/
def pyTake (s : String) (n : Nat) : String := String.mk (s.toList.take n)

/-- `CACHE_SIZE` constant (presales.py line 68). -/
def CACHE_SIZE : Nat := 1000

/-- `get_cache_key` (presales.py lines 92-94): the key of the search cache is
`hashlib.md5(query.lower().strip().encode()).hexdigest()`.  The md5 hex digest
is used by the code only as a dictionary key (it is injective for every input
the program can distinguish), so it is modelled as the identity on the
normalized query `query.lower().strip()`; this preserves exactly the
key-equality structure the code relies on. -/
def get_cache_key (query : String) : String := pyStrip (pyLower query)

/-- `analyze_source_type` (presales.py lines 96-117). -/
def analyze_source_type (url : String) : String :=
  let url_lower := pyLower url
  if strContains url_lower "oracle.com" then
    if strContains url_lower "docs.oracle.com" then "Official Oracle Documentation"
    else if strContains url_lower "support.oracle.com" then "Oracle Support Resources"
    else if strContains url_lower "blogs.oracle.com" then "Oracle Technical Blogs"
    else "Oracle Official Website"
  else if ["github.com", "stackoverflow.com"].any (fun d => strContains url_lower d) then
    "Developer Community Resources"
  else if [".edu", "research", "academic"].any (fun d => strContains url_lower d) then
    "Academic/Research Resources"
  else if ["techcrunch", "zdnet", "computerweekly", "itworld", "finextra"].any
      (fun d => strContains url_lower d) then
    "Technology News/Analysis"
  else if strContains url_lower "banking" || strContains url_lower "financial" then
    "Banking/Financial Industry Resources"
  else "Industry/Technical Articles"

/-- The result dictionary produced by `exa_search` (an `EvidenceResult` in the
spec's data model; `authority_count` is `oracle_sources` and `community_count`
is `community_sources`). -/
structure EvidenceResult where
  content : String
  sources : List String
  source_types : List String
  evidence_strength : String
  oracle_sources : Nat
  community_sources : Nat
deriving DecidableEq, Repr

/-- The global `search_cache` dict (presales.py line 89), modelled as an
association list from cache key to result, in insertion order. -/
abbrev Cache := List (String × EvidenceResult)

/-- Python `cache_key in search_cache` / `search_cache[cache_key]` read. -/
def cacheLookup (c : Cache) (k : String) : Option EvidenceResult :=
  (c.find? (fun p => p.1 == k)).map (fun p => p.2)

/-- Python `search_cache[cache_key] = result`: overwrite when present,
append otherwise. -/
def cacheInsert (c : Cache) (k : String) (v : EvidenceResult) : Cache :=
  if (c.find? (fun p => p.1 == k)).isSome then
    c.map (fun p => if p.1 == k then (p.1, v) else p)
  else c ++ [(k, v)]

/-- The observable outcome of the external MCP search call inside one
`exa_search` invocation: the tool list does not contain `web_search_exa`
(lines 141-151); the tool call raised `McpError` (lines 153-165); the call
returned no usable data (lines 175-185); the call succeeded and the payload
was parsed by `process_search_data` into formatted result strings and the
list `urls_found` (lines 187-253); or an arbitrary exception was raised
anywhere inside the `try` block (lines 332-350). -/
inductive SearchOutcome where
  | toolMissing (tools : List String)
  | mcpError (msg : String)
  | noData
  | success (urls_found : List String) (results : List String)
  | exception (msg : String)
deriving DecidableEq

/-- Python's `str(list_of_str)` rendering, used in the tool-missing message. -/
def pyListRepr (l : List String) : String :=
  "[" ++ pyJoin ", " (l.map (fun t => "\x27" ++ t ++ "\x27")) ++ "]"

/-- The result built on the successful search path of `exa_search`
(presales.py lines 255-266 and 316-325): source-quality tallies over
`urls_found`, the derived `evidence_strength`, and the concatenated content. -/
def searchResultOfUrls (urls_found results : List String) : EvidenceResult :=
  let oracle_sources := (urls_found.filter (fun u => strContains (pyLower u) "oracle.com")).length
  let community_sources :=
    (urls_found.filter (fun u => !(strContains (pyLower u) "oracle.com"))).length
  let evidence_strength :=
    if 2 ≤ oracle_sources then "High"
    else if 1 ≤ oracle_sources ∨ 3 ≤ community_sources then "Moderate"
    else if !urls_found.isEmpty then "Limited"
    else "None"
  { content := if results.isEmpty then "No meaningful search results found."
               else pyJoin "\n\n" results
    sources := urls_found
    source_types := urls_found.map analyze_source_type
    evidence_strength := evidence_strength
    oracle_sources := oracle_sources
    community_sources := community_sources }

/-- `exa_search` (presales.py lines 122-350) as a state transformer on the
cache.  Returns the result dictionary, the updated cache, and a flag telling
whether an external retrieval was performed (`false` exactly on a cache hit).
The error branches (tool missing, `McpError`, no data, exception) store their
result in the cache unconditionally; only the successful branch guards the
insertion with `len(search_cache) < CACHE_SIZE` (line 327).  The function is
total: the surrounding `try`/`except` of the source converts any exception
into the `evidence_strength = "Error"` result, so no exception propagates. -/
def exa_search (query : String) (outcome : SearchOutcome) (cache : Cache) :
    EvidenceResult × Cache × Bool :=
  let cache_key := get_cache_key query
  match cacheLookup cache cache_key with
  | some cached => (cached, cache, false)
  | none =>
    match outcome with
    | SearchOutcome.toolMissing tools =>
      let result : EvidenceResult :=
        { content := "Error: Exa search tool not available. Found: " ++ pyListRepr tools
          sources := [], source_types := [], evidence_strength := "None"
          oracle_sources := 0, community_sources := 0 }
      (result, cacheInsert cache cache_key result, true)
    | SearchOutcome.mcpError msg =>
      let result : EvidenceResult :=
        { content := "Exa search error: " ++ msg
          sources := [], source_types := [], evidence_strength := "None"
          oracle_sources := 0, community_sources := 0 }
      (result, cacheInsert cache cache_key result, true)
    | SearchOutcome.noData =>
      let result : EvidenceResult :=
        { content := "No web search results found."
          sources := [], source_types := [], evidence_strength := "None"
          oracle_sources := 0, community_sources := 0 }
      (result, cacheInsert cache cache_key result, true)
    | SearchOutcome.success urls_found results =>
      let result := searchResultOfUrls urls_found results
      (result,
       if cache.length < CACHE_SIZE then cacheInsert cache cache_key result else cache,
       true)
    | SearchOutcome.exception msg =>
      let result : EvidenceResult :=
        { content := "Web search failed: " ++ msg
          sources := [], source_types := [], evidence_strength := "Error"
          oracle_sources := 0, community_sources := 0 }
      (result, cacheInsert cache cache_key result, true)

/-- The `search_info` dictionary handed to `extract_column_values`
(presales.py lines 817-823).  The function never reads it. -/
structure SearchInfo where
  sources : List String
  source_types : List String
  evidence_strength : String
  oracle_sources : Nat
  community_sources : Nat
deriving DecidableEq

/-- The `column_mapping` synonym table of `extract_column_values`
(presales.py lines 380-392), with Python's `dict.get(raw, raw)` fallback. -/
def column_mapping (raw : String) : String :=
  if raw = "RESPONSE" then "TENDERER\x27S RESPONSE"
  else if raw = "REMARK" then "TENDERER\x27S REMARK"
  else if raw = "COMPLIANCE" then "TENDERER\x27S RESPONSE"
  else if raw = "COMMENT" then "TENDERER\x27S REMARK"
  else if raw = "VENDOR RESPONSE" then "VENDOR RESPONSE"
  else if raw = "VENDOR REMARKS" then "VENDOR REMARKS"
  else if raw = "VENDOR COMMENTS" then "VENDOR REMARKS"
  else if raw = "ANSWER" then "ANSWER"
  else if raw = "NOTES" then "NOTES"
  else raw

/-- A character of the label class `[A-Za-z_'\s]` of the header regex
`^([A-Za-z_'\s]+)\s*:\s*(.*)` (presales.py line 410). -/
def isHeaderChar (c : Char) : Bool :=
  c.isAlpha || c = '_' || c = '\x27' || pyIsSpace c

/-- `re.match(r"^([A-Za-z_'\s]+)\s*:\s*(.*)", line)`: the line must start with
one or more label-class characters immediately followed by a colon (the class
already absorbs any whitespace before the colon, so `\s*` matches empty);
group 1 is the label prefix and group 2 the remainder after the colon with
leading whitespace skipped. -/
def matchHeader (line : String) : Option (String × String) :=
  let cs := line.toList
  let g1 := cs.takeWhile isHeaderChar
  if g1.isEmpty then none
  else
    match cs.dropWhile isHeaderChar with
    | ':' :: rest => some (String.mk g1, String.mk (rest.dropWhile pyIsSpace))
    | _ => none

/-- Python `line.split(":", 1)[1]` when a colon is present, `""` otherwise. -/
def afterFirstColon (line : String) : String :=
  match line.toList.dropWhile (fun c => c ≠ ':') with
  | _ :: rest => String.mk rest
  | [] => ""

/-- The keyword cluster for response-type columns (presales.py line 420). -/
def respKeys : List String := ["RESPONSE", "ANSWER", "COMPLIANCE"]

/-- The keyword cluster for remark-type columns (presales.py line 423). -/
def remarkKeys : List String := ["REMARK", "COMMENT", "NOTES"]

/-- The fuzzy label-to-column fallback loop of `extract_column_values`
(presales.py lines 418-425): the first configured output column sharing a
keyword cluster with the raw label. -/
def fuzzyColumn (raw_col : String) (output_cols : List String) : Option String :=
  output_cols.find? (fun oc =>
    (respKeys.any (fun k => strContains raw_col k) && respKeys.any (fun k => strContains oc k)) ||
    (remarkKeys.any (fun k => strContains raw_col k) &&
      remarkKeys.any (fun k => strContains oc k)))

/-- The mutable state of the line loop of `extract_column_values`:
the `results` dict, `current_col`, `buffer` and `explanation`. -/
structure ExtractState where
  results : List (String × String)
  current : Option String
  buffer : List String
  explanation : String
deriving DecidableEq

/-- `results = {col: "" for col in output_cols}` (presales.py line 394). -/
def initResults (output_cols : List String) : List (String × String) :=
  output_cols.map (fun c => (c, ""))

/-- Read `results[k]` (defaults to `""`; the code only reads keys it holds). -/
def getVal (m : List (String × String)) (k : String) : String :=
  ((m.find? (fun p => p.1 == k)).map (fun p => p.2)).getD ""

/-- Write `results[k] = v` for a key already present. -/
def setVal (m : List (String × String)) (k v : String) : List (String × String) :=
  m.map (fun p => if p.1 == k then (p.1, v) else p)

/-- Python `k in results`. -/
def hasKey (m : List (String × String)) (k : String) : Bool :=
  (m.find? (fun p => p.1 == k)).isSome

/-- The flush `if current_col and current_col in results:
results[current_col] = "\n".join(buffer).strip()` (presales.py lines 412-413
and 435-436). -/
def flushBuffer (st : ExtractState) : ExtractState :=
  match st.current with
  | some c =>
    if c != "" && hasKey st.results c then
      { st with results := setVal st.results c (pyStrip (pyJoin "\n" st.buffer)) }
    else st
  | none => st

/-- One iteration of the line loop of `extract_column_values`
(presales.py lines 401-433). -/
def processLine (output_cols : List String) (st : ExtractState) (line0 : String) :
    ExtractState :=
  let line := pyStrip line0
  if line = "" then st
  else if pyStartsWith (pyUpper line) "EXPLANATION:" then
    { st with explanation := pyStrip (afterFirstColon line) }
  else
    match matchHeader line with
    | some (g1, g2) =>
      let st1 := flushBuffer st
      let raw_col := pyUpper (pyStrip g1)
      let cur0 := column_mapping raw_col
      if output_cols.contains cur0 then
        { st1 with current := some cur0, buffer := [pyStrip g2] }
      else
        match fuzzyColumn raw_col output_cols with
        | some oc => { st1 with current := some oc, buffer := [pyStrip g2] }
        | none => { st1 with current := none }
    | none =>
      match st.current with
      | some c => if c != "" then { st with buffer := st.buffer ++ [line] } else st
      | none => st

/-- The parsing phase of `extract_column_values` (presales.py lines 394-436):
fold the line loop over `text.splitlines()` and flush the final buffer. -/
def parseState (text : String) (output_cols : List String) : ExtractState :=
  flushBuffer ((pySplitLines text).foldl (processLine output_cols)
    { results := initResults output_cols, current := none, buffer := [], explanation := "" })

/-- `any(keyword in col.upper() for keyword in ["RESPONSE", "ANSWER", "COMPLIANCE"])`. -/
def respCol (col : String) : Bool := respKeys.any (fun k => strContains (pyUpper col) k)

/-- `any(keyword in col.upper() for keyword in ["REMARK", "COMMENT", "NOTES"])`. -/
def remarkCol (col : String) : Bool := remarkKeys.any (fun k => strContains (pyUpper col) k)

/-- The generic remark used to fill an empty remark-type column
(presales.py line 444). -/
def genericUnfilledRemark : String :=
  "Based on comprehensive analysis of available Oracle documentation and industry resources, specific information regarding this requirement could not be definitively established."

/-- One iteration of the empty-column fill loop (presales.py lines 439-444). -/
def fillStep (m : List (String × String)) (col : String) : List (String × String) :=
  if pyStrip (getVal m col) = "" then
    if respCol col then setVal m col "Not found"
    else if remarkCol col then setVal m col genericUnfilledRemark
    else m
  else m

/-- The fill step for empty columns (presales.py lines 438-444). -/
def fillEmpty (output_cols : List String) (m : List (String × String)) :
    List (String × String) :=
  output_cols.foldl fillStep m

/-- One iteration of the response/remark column detection loop
(presales.py lines 450-454). -/
def detectStep (acc : Option String × Option String) (col : String) :
    Option String × Option String :=
  if respCol col then (some col, acc.2)
  else if remarkCol col then (acc.1, some col)
  else acc

/-- The response/remark column detection loop (presales.py lines 446-454);
the last matching column wins. -/
def detectCols (output_cols : List String) : Option String × Option String :=
  output_cols.foldl detectStep (none, none)

/-- Fixed remark for a `yes` response with no explanation (presales.py line 465). -/
def genericYesRemark : String :=
  "Oracle FLEXCUBE provides the required functionality as part of its core banking capabilities."

/-- Fixed remark for a `partially` response with no explanation (line 472). -/
def genericPartialRemark : String :=
  "Oracle FLEXCUBE provides partial support for this requirement with some limitations or additional configuration needed."

/-- Fixed remark for a `no` response with no explanation (line 479). -/
def genericNoRemark : String :=
  "Based on available Oracle FLEXCUBE documentation and capabilities analysis, this specific requirement is not supported by the current platform architecture."

/-- Fixed remark for a `not found` response with no explanation (line 486). -/
def genericNotFoundRemark : String :=
  "Comprehensive analysis of available Oracle documentation and industry resources could not identify specific information regarding this requirement. Further clarification with Oracle technical teams may be required."

/-- `extract_column_values` (presales.py lines 378-492): parse the LLM reply
into the output columns, fill empties, then recompose the remark column from
the canonicalized response value and the `EXPLANATION:` side channel.  No
branch consults `search_info` and none appends any source link. -/
def extract_column_values (text : String) (output_cols : List String)
    (search_info : SearchInfo) : List (String × String) :=
  let st := parseState text output_cols
  let m := fillEmpty output_cols st.results
  match detectCols output_cols with
  | (some response_col, some remark_col) =>
    if getVal m response_col ≠ "" then
      let response_value := pyLower (pyStrip (getVal m response_col))
      if response_value = "yes" then
        setVal m remark_col (if st.explanation ≠ "" then st.explanation else genericYesRemark)
      else if response_value = "partially" then
        setVal m remark_col
          (if st.explanation ≠ "" then st.explanation else genericPartialRemark)
      else if response_value = "no" then
        setVal m remark_col (if st.explanation ≠ "" then st.explanation else genericNoRemark)
      else if response_value = "not found" then
        setVal m remark_col
          (if st.explanation ≠ "" then st.explanation else genericNotFoundRemark)
      else m
    else if st.explanation ≠ "" then setVal m remark_col st.explanation else m
  | (_, some remark_col) =>
    if st.explanation ≠ "" then setVal m remark_col st.explanation else m
  | (_, none) => m

/-- One spreadsheet row: configured column name to cell text (`none` models a
`NaN` cell, for which `pd.notna` is false). -/
abbrev Row := List (String × Option String)

/-- Cell access `row[col]` guarded by `col in row and pd.notna(row[col])`. -/
def rowLookup (row : Row) (c : String) : Option String :=
  (row.find? (fun p => p.1 == c)).bind (fun p => p.2)

/-- The `input_data` extraction of `process_row_async` (presales.py
lines 692-698): non-empty stripped cells of the input columns, in order. -/
def inputData (row : Row) (input_cols : List String) : List (String × String) :=
  input_cols.filterMap (fun c =>
    match rowLookup row c with
    | some v => if pyStrip v ≠ "" then some (c, pyStrip v) else none
    | none => none)

/-- `input_text = " ".join(input_data.values())` (presales.py line 699). -/
def rowInputText (row : Row) (input_cols : List String) : String :=
  pyJoin " " ((inputData row input_cols).map (fun p => p.2))

/-- The search-query construction of `process_row_async` (presales.py
lines 707-714): words longer than three characters, capped per column and
overall, prefixed with the domain anchor. -/
def searchQueryOf (row : Row) (input_cols : List String) : String :=
  let key_terms :=
    ((inputData row input_cols).map
      (fun p => ((pyWords p.2).filter (fun w => 3 < w.length)).take 150)).flatten
  "oracle flexcube " ++ pyJoin " " (key_terms.take 100)

/-- The error-marker string of the row processor's exception guard
(presales.py line 853): `f"Processing error: {str(e)[:150]}..."`. -/
def processingErrorText (e : String) : String :=
  "Processing error: " ++ pyTake e 150 ++ "..."

/-- The observable return of one `process_row_async` call: the row index, the
output-column mapping, the cache after the call, and whether the retriever
and the LLM judge were invoked. -/
structure RowResult where
  idx : Nat
  outputs : List (String × String)
  cache : Cache
  searched : Bool
  judged : Bool
deriving DecidableEq, Repr

/-- `process_row_async` (presales.py lines 686-854) as a total function.
`outcome` is the behaviour of the external search call and `ai_response` the
text returned by `call_openai` (which never raises: after exhausting retries
it returns a failure message as text, lines 355-373).  `exc` models an
exception raised inside the Retriever→Judge→Parser pipeline (the body of the
`try` after the insufficient-content pre-check, modelled as surfacing at the
retrieval step); the source's `except` block (lines 844-854) converts it into
`"Processing error: ..."` outputs for every configured output column and
returns normally, so the function is total. -/
def process_row_async (index : Nat) (row : Row) (input_cols output_cols : List String)
    (outcome : SearchOutcome) (ai_response : String) (exc : Option String)
    (cache : Cache) : RowResult :=
  let input_text := rowInputText row input_cols
  let word_count := (pyWords input_text).length
  if word_count < 5 then
    { idx := index
      outputs := output_cols.map (fun c => (c, "Insufficient content for analysis"))
      cache := cache, searched := false, judged := false }
  else
    match exc with
    | some e =>
      { idx := index
        outputs := output_cols.map (fun c => (c, processingErrorText e))
        cache := cache, searched := false, judged := false }
    | none =>
      let res := exa_search (searchQueryOf row input_cols) outcome cache
      let sr := res.1
      let search_info : SearchInfo :=
        { sources := sr.sources, source_types := sr.source_types
          evidence_strength := sr.evidence_strength
          oracle_sources := sr.oracle_sources, community_sources := sr.community_sources }
      { idx := index
        outputs := extract_column_values ai_response output_cols search_info
        cache := res.2.1, searched := true, judged := true }

/-- An arbitrary cached value, used to build concrete cache states. -/
def dummyResult : EvidenceResult :=
  { content := "x", sources := [], source_types := [],
    evidence_strength := "None", oracle_sources := 0, community_sources := 0 }

/-- A concrete cache state holding exactly `CACHE_SIZE` distinct keys. -/
def bigCache : Cache :=
  (List.range CACHE_SIZE).map (fun i => ("q" ++ toString i, dummyResult))

/-- The spec's side of claim C7, following its words: two queries "differing
only in case/whitespace" are those whose lowercased, whitespace-free character
sequences coincide. -/
def specDiffersOnlyInCaseOrWhitespace (a b : String) : Bool :=
  ((pyLower a).toList.filter (fun c => !(pyIsSpace c))) ==
    ((pyLower b).toList.filter (fun c => !(pyIsSpace c)))

/-! ### Helper lemmas about the association-list dictionaries -/

theorem hasKey_setVal (m : List (String × String)) (k v k' : String) :
    hasKey (setVal m k v) k' = hasKey m k' := by
  induction m with
  | nil => rfl
  | cons p t ih =>
    by_cases h1 : (p.1 == k) = true <;> by_cases h2 : (p.1 == k') = true <;>
      simp [setVal, hasKey, List.find?, h1, h2] <;>
      simpa [setVal, hasKey] using ih

theorem getVal_setVal_self (m : List (String × String)) (k v : String)
    (h : hasKey m k = true) : getVal (setVal m k v) k = v := by
  induction m with
  | nil => simp [hasKey, List.find?] at h
  | cons p t ih =>
    by_cases h1 : (p.1 == k) = true
    · simp [setVal, getVal, List.find?, h1]
    · have h' : hasKey t k = true := by
        unfold hasKey at h ⊢
        rwa [List.find?_cons_of_neg _ (by simpa using h1)] at h
      have : getVal (setVal t k v) k = v := ih h'
      simpa [setVal, getVal, List.find?, h1] using this

theorem hasKey_initResults_of_mem {k : String} {ocols : List String} (h : k ∈ ocols) :
    hasKey (initResults ocols) k = true := by
  induction ocols with
  | nil => simp at h
  | cons c t ih =>
    rcases List.mem_cons.mp h with rfl | hmem
    · simp [initResults, hasKey, List.find?]
    · by_cases hc : (c == k) = true <;>
        simp [initResults, hasKey, List.find?, hc] <;>
        simpa [initResults, hasKey] using ih hmem

theorem hasKey_fillStep (m : List (String × String)) (col k : String) :
    hasKey (fillStep m col) k = hasKey m k := by
  by_cases h0 : pyStrip (getVal m col) = ""
  · by_cases h1 : respCol col = true
    · simp [fillStep, h0, h1, hasKey_setVal]
    · by_cases h2 : remarkCol col = true <;> simp [fillStep, h0, h1, h2, hasKey_setVal]
  · simp [fillStep, h0]

theorem hasKey_fillEmpty (ocols : List String) (m : List (String × String)) (k : String) :
    hasKey (fillEmpty ocols m) k = hasKey m k := by
  induction ocols generalizing m with
  | nil => rfl
  | cons c t ih =>
    show hasKey (fillEmpty t (fillStep m c)) k = hasKey m k
    rw [ih, hasKey_fillStep]

theorem hasKey_flushBuffer (st : ExtractState) (k : String) :
    hasKey (flushBuffer st).results k = hasKey st.results k := by
  rcases hc : st.current with _ | c
  · simp [flushBuffer, hc]
  · by_cases hne : (c != "" && hasKey st.results c) = true <;>
      simp [flushBuffer, hc, hne, hasKey_setVal]

theorem hasKey_processLine (ocols : List String) (st : ExtractState) (line0 : String)
    (k : String) : hasKey (processLine ocols st line0).results k = hasKey st.results k := by
  by_cases h0 : pyStrip line0 = ""
  · simp [processLine, h0]
  · by_cases h1 : pyStartsWith (pyUpper (pyStrip line0)) "EXPLANATION:" = true
    · simp [processLine, h0, h1]
    · rcases hm : matchHeader (pyStrip line0) with _ | ⟨g1, g2⟩
      · rcases hc : st.current with _ | c
        · simp [processLine, h0, h1, hm, hc]
        · by_cases hne : (c != "") = true <;> simp [processLine, h0, h1, hm, hc, hne]
      · by_cases hcon : column_mapping (pyUpper (pyStrip g1)) ∈ ocols
        · simp [processLine, h0, h1, hm, hcon, hasKey_flushBuffer]
        · rcases hf : fuzzyColumn (pyUpper (pyStrip g1)) ocols with _ | oc <;>
            simp [processLine, h0, h1, hm, hcon, hf, hasKey_flushBuffer]

theorem hasKey_foldl_processLine (ocols : List String) (lines : List String)
    (st : ExtractState) (k : String) :
    hasKey ((lines.foldl (processLine ocols) st).results) k = hasKey st.results k := by
  induction lines generalizing st with
  | nil => rfl
  | cons l t ih =>
    show hasKey ((t.foldl (processLine ocols) (processLine ocols st l)).results) k = _
    rw [ih, hasKey_processLine]

theorem hasKey_parseState_of_mem {k : String} {ocols : List String} (h : k ∈ ocols)
    (text : String) : hasKey (parseState text ocols).results k = true := by
  unfold parseState
  rw [hasKey_flushBuffer, hasKey_foldl_processLine]
  exact hasKey_initResults_of_mem h

theorem detectStep_foldl_snd_mem (l : List String) (acc : Option String × Option String)
    (c : String) (h : (l.foldl detectStep acc).2 = some c) : c ∈ l ∨ acc.2 = some c := by
  induction l generalizing acc with
  | nil => exact Or.inr h
  | cons a t ih =>
    rcases ih (detectStep acc a) (by simpa using h) with hm | hacc
    · exact Or.inl (List.mem_cons_of_mem _ hm)
    · by_cases h1 : respCol a = true
      · exact Or.inr (by simpa [detectStep, h1] using hacc)
      · by_cases h2 : remarkCol a = true
        · simp [detectStep, h1, h2] at hacc
          exact Or.inl (by simp [hacc])
        · exact Or.inr (by simpa [detectStep, h1, h2] using hacc)

theorem detectCols_snd_mem {ocols : List String} {c : String}
    (h : (detectCols ocols).2 = some c) : c ∈ ocols := by
  rcases detectStep_foldl_snd_mem ocols (none, none) c h with hm | hacc
  · exact hm
  · simp at hacc

/-! ### Helper lemmas about the evidence cache -/

theorem length_filter_add_length_filter_not {α : Type} (p : α → Bool) (l : List α) :
    (l.filter p).length + (l.filter (fun a => !(p a))).length = l.length := by
  induction l with
  | nil => rfl
  | cons a t ih => by_cases h : p a <;> simp [List.filter_cons, h] <;> omega

theorem cacheInsert_of_miss {c : Cache} {k : String} (v : EvidenceResult)
    (h : cacheLookup c k = none) : cacheInsert c k v = c ++ [(k, v)] := by
  have hf : c.find? (fun p => p.1 == k) = none := Option.map_eq_none'.mp h
  simp [cacheInsert, hf]

theorem cacheLookup_append_self {c : Cache} {k : String} (v : EvidenceResult)
    (h : cacheLookup c k = none) : cacheLookup (c ++ [(k, v)]) k = some v := by
  induction c with
  | nil => simp [cacheLookup, List.find?]
  | cons p t ih =>
    by_cases h1 : (p.1 == k) = true
    · exfalso
      have hfind : List.find? (fun x => x.1 == k) (p :: t) = some p :=
        List.find?_cons_of_pos t h1
      unfold cacheLookup at h
      rw [hfind] at h
      simp at h
    · have h' : cacheLookup t k = none := by
        unfold cacheLookup at h ⊢
        rwa [List.find?_cons_of_neg _ (by simpa using h1)] at h
      have ihh := ih h'
      unfold cacheLookup at ihh ⊢
      rw [List.cons_append, List.find?_cons_of_neg _ (by simpa using h1)]
      exact ihh

/-- After any `exa_search` call against a cache with free capacity, the
returned result is cached under the query's key. -/
theorem exa_search_inserted (q : String) (outcome : SearchOutcome) (cache : Cache)
    (hcap : cache.length < CACHE_SIZE) :
    cacheLookup (exa_search q outcome cache).2.1 (get_cache_key q)
      = some (exa_search q outcome cache).1 := by
  rcases h : cacheLookup cache (get_cache_key q) with _ | r
  · cases outcome <;>
      simp only [exa_search, h] <;>
      rw [cacheInsert_of_miss _ h] <;>
      first
        | exact cacheLookup_append_self _ h
        | · rw [if_pos hcap]
            exact cacheLookup_append_self _ h
  · simp [exa_search, h]

/-! ### Claims C3, C4, C8 -/

/-- C3 auxiliary: the evidence-strength thresholds of the success branch. -/
theorem searchResultOfUrls_strength (urls_found results : List String) :
    (2 ≤ (searchResultOfUrls urls_found results).oracle_sources →
      (searchResultOfUrls urls_found results).evidence_strength = "High") ∧
    ((searchResultOfUrls urls_found results).oracle_sources = 0 →
     (searchResultOfUrls urls_found results).community_sources = 0 →
      (searchResultOfUrls urls_found results).evidence_strength = "None") := by
  constructor
  · intro h
    simp only [searchResultOfUrls] at h ⊢
    rw [if_pos h]
  · intro h0 h1
    simp only [searchResultOfUrls] at h0 h1 ⊢
    have hlen := length_filter_add_length_filter_not
      (fun u => strContains (pyLower u) "oracle.com") urls_found
    rw [h0, h1] at hlen
    have hnil : urls_found = [] := List.length_eq_zero.mp (by omega)
    subst hnil
    simp

/-- C3: for every `EvidenceResult` computed by a retrieval call on a cache
miss with a successful external search, `oracle_sources >= 2` (the spec's
`authority_count`) forces `evidence_strength = "High"`, and
`oracle_sources = 0` together with `community_sources = 0` forces
`evidence_strength = "None"` (presales.py lines 255-266). -/
theorem C3_evidence_strength (q : String) (cache : Cache) (urls_found results : List String)
    (hmiss : cacheLookup cache (get_cache_key q) = none) :
    (2 ≤ (exa_search q (SearchOutcome.success urls_found results) cache).1.oracle_sources →
      (exa_search q (SearchOutcome.success urls_found results) cache).1.evidence_strength
        = "High") ∧
    ((exa_search q (SearchOutcome.success urls_found results) cache).1.oracle_sources = 0 →
     (exa_search q (SearchOutcome.success urls_found results) cache).1.community_sources = 0 →
      (exa_search q (SearchOutcome.success urls_found results) cache).1.evidence_strength
        = "None") := by
  have hr : (exa_search q (SearchOutcome.success urls_found results) cache).1
      = searchResultOfUrls urls_found results := by
    simp [exa_search, hmiss]
  rw [hr]
  exact searchResultOfUrls_strength urls_found results

/-- Witness for C3 at concrete inputs: two Oracle URLs give `"High"`, an
empty URL list gives `"None"`. -/
theorem C3_evidence_strength_witness :
    ((exa_search "q" (SearchOutcome.success
        ["https://docs.oracle.com/a", "https://www.oracle.com/b"] ["r"]) []).1.evidence_strength
      = "High") ∧
    ((exa_search "q" (SearchOutcome.success [] []) []).1.evidence_strength = "None") :=
  ⟨(C3_evidence_strength "q" []
      ["https://docs.oracle.com/a", "https://www.oracle.com/b"] ["r"] rfl).1 (by decide),
   (C3_evidence_strength "q" [] [] [] rfl).2 (by decide) (by decide)⟩

/-- Every non-success outcome of the external call inside `exa_search`. -/
def isFailureOutcome : SearchOutcome → Bool
  | SearchOutcome.success _ _ => false
  | _ => true

theorem append_ne_empty_of_left_pos {a : String} (b : String) (h : 0 < a.length) :
    a ++ b ≠ "" := by
  intro hc
  have hlen := congrArg String.length hc
  rw [String.length_append] at hlen
  have hz : ("" : String).length = 0 := rfl
  rw [hz] at hlen
  omega

/-- C4: on a cache miss, every ordinary failure of the external retrieval
(tool missing, tool-call error, no data, or any exception inside the `try`
block) makes `exa_search` return normally with an `EvidenceResult` whose
`evidence_strength` is `"Error"` or `"None"` and whose `content` is a
non-empty explanatory string (presales.py lines 141-185 and 332-350).  No
exception propagates: in this embedding `exa_search` is a total function,
mirroring the source's all-catching `try`/`except`. -/
theorem C4_failure_contained (q : String) (cache : Cache) (outcome : SearchOutcome)
    (hmiss : cacheLookup cache (get_cache_key q) = none)
    (hfail : isFailureOutcome outcome = true) :
    ((exa_search q outcome cache).1.evidence_strength = "Error" ∨
     (exa_search q outcome cache).1.evidence_strength = "None") ∧
    (exa_search q outcome cache).1.content ≠ "" := by
  cases outcome with
  | toolMissing tools =>
    refine ⟨Or.inr (by simp [exa_search, hmiss]), ?_⟩
    have hc : (exa_search q (SearchOutcome.toolMissing tools) cache).1.content
        = "Error: Exa search tool not available. Found: " ++ pyListRepr tools := by
      simp [exa_search, hmiss]
    rw [hc]
    exact append_ne_empty_of_left_pos _ (by decide)
  | mcpError msg =>
    refine ⟨Or.inr (by simp [exa_search, hmiss]), ?_⟩
    have hc : (exa_search q (SearchOutcome.mcpError msg) cache).1.content
        = "Exa search error: " ++ msg := by
      simp [exa_search, hmiss]
    rw [hc]
    exact append_ne_empty_of_left_pos _ (by decide)
  | noData =>
    refine ⟨Or.inr (by simp [exa_search, hmiss]), ?_⟩
    have hc : (exa_search q SearchOutcome.noData cache).1.content
        = "No web search results found." := by
      simp [exa_search, hmiss]
    rw [hc]
    decide
  | success urls results => simp [isFailureOutcome] at hfail
  | exception msg =>
    refine ⟨Or.inl (by simp [exa_search, hmiss]), ?_⟩
    have hc : (exa_search q (SearchOutcome.exception msg) cache).1.content
        = "Web search failed: " ++ msg := by
      simp [exa_search, hmiss]
    rw [hc]
    exact append_ne_empty_of_left_pos _ (by decide)

/-- Witness for C4 at a concrete input: a missing tool on an empty cache. -/
theorem C4_failure_contained_witness :
    ((exa_search "query" (SearchOutcome.toolMissing ["other_tool"]) []).1.evidence_strength
        = "Error" ∨
     (exa_search "query" (SearchOutcome.toolMissing ["other_tool"]) []).1.evidence_strength
        = "None") ∧
    (exa_search "query" (SearchOutcome.toolMissing ["other_tool"]) []).1.content ≠ "" :=
  C4_failure_contained "query" [] (SearchOutcome.toolMissing ["other_tool"]) rfl rfl

/-- C8: `extract_column_values` is a pure function of `raw_text` and
`output_columns` alone: it never reads `search_info`, so two calls with the
same text and columns return identical mappings whatever search metadata they
are handed — in particular repeated calls with identical arguments agree.
Side-effect freedom holds by construction in this embedding, matching the
source function, which mutates nothing outside its local state. -/
theorem C8_extract_deterministic (text : String) (output_cols : List String)
    (si si' : SearchInfo) :
    extract_column_values text output_cols si = extract_column_values text output_cols si' :=
  rfl

/-! ### Claims C1 and C2: the remark-composition policy -/

/-- The remark column's final value for any of the four canonical response
values: the `EXPLANATION:` side channel when non-empty, otherwise the fixed
generic statement of that branch (presales.py lines 456-486). -/
theorem extract_remark_value (text : String) (ocols : List String) (si : SearchInfo)
    (rc mc v fixed : String)
    (hdet : detectCols ocols = (some rc, some mc))
    (hmc : mc ∈ ocols)
    (hrv : pyLower (pyStrip (getVal (fillEmpty ocols (parseState text ocols).results) rc)) = v)
    (hv : (v = "yes" ∧ fixed = genericYesRemark) ∨
          (v = "partially" ∧ fixed = genericPartialRemark) ∨
          (v = "no" ∧ fixed = genericNoRemark) ∨
          (v = "not found" ∧ fixed = genericNotFoundRemark)) :
    getVal (extract_column_values text ocols si) mc
      = if (parseState text ocols).explanation ≠ "" then (parseState text ocols).explanation
        else fixed := by
  have hne : getVal (fillEmpty ocols (parseState text ocols).results) rc ≠ "" := by
    intro h0
    rw [h0] at hrv
    rcases hv with ⟨hv1, _⟩ | ⟨hv1, _⟩ | ⟨hv1, _⟩ | ⟨hv1, _⟩ <;> subst hv1 <;>
      exact absurd hrv (by decide)
  have hkey : hasKey (fillEmpty ocols (parseState text ocols).results) mc = true := by
    rw [hasKey_fillEmpty]
    exact hasKey_parseState_of_mem hmc text
  simp only [extract_column_values, hdet]
  rw [if_pos hne, hrv]
  rcases hv with ⟨hv1, hf⟩ | ⟨hv1, hf⟩ | ⟨hv1, hf⟩ | ⟨hv1, hf⟩ <;> subst hv1 <;> subst hf
  · rw [if_pos rfl, getVal_setVal_self _ _ _ hkey]
  · rw [if_neg (by decide), if_pos rfl, getVal_setVal_self _ _ _ hkey]
  · rw [if_neg (by decide), if_neg (by decide), if_pos rfl, getVal_setVal_self _ _ _ hkey]
  · rw [if_neg (by decide), if_neg (by decide), if_neg (by decide), if_pos rfl,
      getVal_setVal_self _ _ _ hkey]

/-- C1: whenever the parsed reply's canonicalized response value is `"no"` or
`"not found"`, the remark column composed by `extract_column_values` is the
reply's `EXPLANATION:` line when one is present and the fixed generic
non-support (for `no`) or insufficient-evidence (for `not found`) statement
otherwise; in particular it contains no "Reference Sources Consulted" section
and no `http` source link beyond what the explanation itself carries
(presales.py lines 474-486). -/
theorem C1_negative_remark_policy (text : String) (ocols : List String) (si : SearchInfo)
    (rc mc : String)
    (hdet : detectCols ocols = (some rc, some mc))
    (hval :
      pyLower (pyStrip (getVal (fillEmpty ocols (parseState text ocols).results) rc)) = "no" ∨
      pyLower (pyStrip (getVal (fillEmpty ocols (parseState text ocols).results) rc))
        = "not found") :
    (getVal (extract_column_values text ocols si) mc
      = if (parseState text ocols).explanation ≠ "" then (parseState text ocols).explanation
        else if pyLower (pyStrip (getVal (fillEmpty ocols (parseState text ocols).results) rc))
            = "no"
        then genericNoRemark else genericNotFoundRemark) ∧
    (strContains (parseState text ocols).explanation "Reference Sources Consulted" = false →
      strContains (getVal (extract_column_values text ocols si) mc)
        "Reference Sources Consulted" = false) ∧
    (strContains (parseState text ocols).explanation "http" = false →
      strContains (getVal (extract_column_values text ocols si) mc) "http" = false) := by
  have hmc : mc ∈ ocols := detectCols_snd_mem (by rw [hdet])
  have hmain : getVal (extract_column_values text ocols si) mc
      = if (parseState text ocols).explanation ≠ "" then (parseState text ocols).explanation
        else if pyLower (pyStrip (getVal (fillEmpty ocols (parseState text ocols).results) rc))
            = "no"
        then genericNoRemark else genericNotFoundRemark := by
    rcases hval with h | h
    · have hx := extract_remark_value text ocols si rc mc "no" genericNoRemark hdet hmc h
        (Or.inr (Or.inr (Or.inl ⟨rfl, rfl⟩)))
      rw [hx, h]
      by_cases hexp : (parseState text ocols).explanation ≠ ""
      · rw [if_pos hexp, if_pos hexp]
      · rw [if_neg hexp, if_neg hexp, if_pos rfl]
    · have hx := extract_remark_value text ocols si rc mc "not found" genericNotFoundRemark
        hdet hmc h (Or.inr (Or.inr (Or.inr ⟨rfl, rfl⟩)))
      rw [hx, h]
      by_cases hexp : (parseState text ocols).explanation ≠ ""
      · rw [if_pos hexp, if_pos hexp]
      · rw [if_neg hexp, if_neg hexp, if_neg (by decide)]
  refine ⟨hmain, ?_, ?_⟩ <;> intro hin <;> rw [hmain] <;>
    by_cases hexp : (parseState text ocols).explanation ≠ ""
  · rwa [if_pos hexp]
  · rw [if_neg hexp]
    rcases hval with h | h
    · rw [h, if_pos rfl]; decide
    · rw [h, if_neg (by decide)]; decide
  · rwa [if_pos hexp]
  · rw [if_neg hexp]
    rcases hval with h | h
    · rw [h, if_pos rfl]; decide
    · rw [h, if_neg (by decide)]; decide

/-- Witness for C1 at a concrete parsed reply with response `No` and an
explanation line. -/
theorem C1_negative_remark_policy_witness :
    getVal (extract_column_values
        "TENDERER\x27S RESPONSE: No\nEXPLANATION: The capability is absent."
        ["TENDERER\x27S RESPONSE", "TENDERER\x27S REMARK"]
        ⟨[], [], "None", 0, 0⟩)
      "TENDERER\x27S REMARK" = "The capability is absent." := by
  have h := C1_negative_remark_policy
      "TENDERER\x27S RESPONSE: No\nEXPLANATION: The capability is absent."
      ["TENDERER\x27S RESPONSE", "TENDERER\x27S REMARK"]
      ⟨[], [], "None", 0, 0⟩
      "TENDERER\x27S RESPONSE" "TENDERER\x27S REMARK" (by decide) (Or.inl (by decide))
  rw [h.1]
  decide

/-- C2 counterexample: a parsed reply with canonicalized response `"yes"`, an
explanation line, and a non-empty list of consulted sources in `search_info`,
whose final remark is exactly the explanation: it contains no
"Reference Sources Consulted" section and does not cite the consulted URL.
This refutes the claim that for `Yes`/`Partially` replies the remark includes
a "Reference Sources Consulted" section citing the consulted source URLs:
`extract_column_values` never appends one (presales.py lines 456-472,
commented "NO LINKS"). -/
theorem C2_counterexample :
    getVal (extract_column_values
        "TENDERER\x27S RESPONSE: Yes\nEXPLANATION: Fully supported."
        ["TENDERER\x27S RESPONSE", "TENDERER\x27S REMARK"]
        ⟨["https://docs.oracle.com/x"], ["Official Oracle Documentation"], "High", 2, 0⟩)
      "TENDERER\x27S REMARK" = "Fully supported." ∧
    strContains (getVal (extract_column_values
        "TENDERER\x27S RESPONSE: Yes\nEXPLANATION: Fully supported."
        ["TENDERER\x27S RESPONSE", "TENDERER\x27S REMARK"]
        ⟨["https://docs.oracle.com/x"], ["Official Oracle Documentation"], "High", 2, 0⟩)
      "TENDERER\x27S REMARK") "Reference Sources Consulted" = false ∧
    strContains (getVal (extract_column_values
        "TENDERER\x27S RESPONSE: Yes\nEXPLANATION: Fully supported."
        ["TENDERER\x27S RESPONSE", "TENDERER\x27S REMARK"]
        ⟨["https://docs.oracle.com/x"], ["Official Oracle Documentation"], "High", 2, 0⟩)
      "TENDERER\x27S REMARK") "https://docs.oracle.com/x" = false :=
  ⟨by decide, by decide, by decide⟩

/-- C2 (amended): whenever the parsed reply's canonicalized response value is
`"yes"` or `"partially"`, the remark column is the explanation when present
and the fixed generic positive (for `yes`) or partial-support (for
`partially`) statement otherwise — and, contrary to the original claim, no
"Reference Sources Consulted" section and no source link is appended: the
remark carries such text only if the explanation itself does
(presales.py lines 456-472). -/
theorem C2_positive_remark_no_links (text : String) (ocols : List String) (si : SearchInfo)
    (rc mc : String)
    (hdet : detectCols ocols = (some rc, some mc))
    (hval :
      pyLower (pyStrip (getVal (fillEmpty ocols (parseState text ocols).results) rc)) = "yes" ∨
      pyLower (pyStrip (getVal (fillEmpty ocols (parseState text ocols).results) rc))
        = "partially") :
    (getVal (extract_column_values text ocols si) mc
      = if (parseState text ocols).explanation ≠ "" then (parseState text ocols).explanation
        else if pyLower (pyStrip (getVal (fillEmpty ocols (parseState text ocols).results) rc))
            = "yes"
        then genericYesRemark else genericPartialRemark) ∧
    (strContains (parseState text ocols).explanation "Reference Sources Consulted" = false →
      strContains (getVal (extract_column_values text ocols si) mc)
        "Reference Sources Consulted" = false) ∧
    (strContains (parseState text ocols).explanation "http" = false →
      strContains (getVal (extract_column_values text ocols si) mc) "http" = false) := by
  have hmc : mc ∈ ocols := detectCols_snd_mem (by rw [hdet])
  have hmain : getVal (extract_column_values text ocols si) mc
      = if (parseState text ocols).explanation ≠ "" then (parseState text ocols).explanation
        else if pyLower (pyStrip (getVal (fillEmpty ocols (parseState text ocols).results) rc))
            = "yes"
        then genericYesRemark else genericPartialRemark := by
    rcases hval with h | h
    · have hx := extract_remark_value text ocols si rc mc "yes" genericYesRemark hdet hmc h
        (Or.inl ⟨rfl, rfl⟩)
      rw [hx, h]
      by_cases hexp : (parseState text ocols).explanation ≠ ""
      · rw [if_pos hexp, if_pos hexp]
      · rw [if_neg hexp, if_neg hexp, if_pos rfl]
    · have hx := extract_remark_value text ocols si rc mc "partially" genericPartialRemark
        hdet hmc h (Or.inr (Or.inl ⟨rfl, rfl⟩))
      rw [hx, h]
      by_cases hexp : (parseState text ocols).explanation ≠ ""
      · rw [if_pos hexp, if_pos hexp]
      · rw [if_neg hexp, if_neg hexp, if_neg (by decide)]
  refine ⟨hmain, ?_, ?_⟩ <;> intro hin <;> rw [hmain] <;>
    by_cases hexp : (parseState text ocols).explanation ≠ ""
  · rwa [if_pos hexp]
  · rw [if_neg hexp]
    rcases hval with h | h
    · rw [h, if_pos rfl]; decide
    · rw [h, if_neg (by decide)]; decide
  · rwa [if_pos hexp]
  · rw [if_neg hexp]
    rcases hval with h | h
    · rw [h, if_pos rfl]; decide
    · rw [h, if_neg (by decide)]; decide

/-- Witness for the amended C2 at a concrete parsed reply with response
`Partially` and no explanation line: the remark is the fixed generic
partial-support statement. -/
theorem C2_positive_remark_no_links_witness :
    getVal (extract_column_values "TENDERER\x27S RESPONSE: Partially"
        ["TENDERER\x27S RESPONSE", "TENDERER\x27S REMARK"]
        ⟨["https://docs.oracle.com/x"], ["Official Oracle Documentation"], "High", 2, 0⟩)
      "TENDERER\x27S REMARK" = genericPartialRemark := by
  have h := C2_positive_remark_no_links "TENDERER\x27S RESPONSE: Partially"
      ["TENDERER\x27S RESPONSE", "TENDERER\x27S REMARK"]
      ⟨["https://docs.oracle.com/x"], ["Official Oracle Documentation"], "High", 2, 0⟩
      "TENDERER\x27S RESPONSE" "TENDERER\x27S REMARK" (by decide) (Or.inr (by decide))
  rw [h.1]
  decide

/-! ### Claims C5 and C9: the row processor -/

theorem pyTake_length_le (s : String) (n : Nat) : (pyTake s n).length ≤ n := by
  have h : (pyTake s n).length = (s.toList.take n).length := rfl
  rw [h, List.length_take]
  exact Nat.min_le_left n _

/-- The error-marker string of the row processor's exception guard begins
with `"Processing error:"`, is non-empty, and is bounded in length by
`18 + 150 + 3 = 171` characters. -/
theorem processingErrorText_spec (e : String) :
    (∃ rest, processingErrorText e = "Processing error:" ++ rest) ∧
    processingErrorText e ≠ "" ∧
    (processingErrorText e).length ≤ 171 := by
  have h18 : ("Processing error: " : String).length = 18 := rfl
  have h3 : ("..." : String).length = 3 := rfl
  have htake := pyTake_length_le e 150
  refine ⟨⟨" " ++ (pyTake e 150 ++ "..."), ?_⟩, ?_, ?_⟩
  · show "Processing error: " ++ pyTake e 150 ++ "..."
      = "Processing error:" ++ (" " ++ (pyTake e 150 ++ "..."))
    have h1 : ("Processing error:" ++ " " : String) = "Processing error: " := by decide
    rw [← String.append_assoc, ← String.append_assoc, h1]
  · intro hc
    have hlen := congrArg String.length hc
    simp only [processingErrorText] at hlen
    rw [String.length_append, String.length_append] at hlen
    have hz : ("" : String).length = 0 := rfl
    rw [hz, h18, h3] at hlen
    omega
  · show (("Processing error: " ++ pyTake e 150) ++ "...").length ≤ 171
    rw [String.length_append, String.length_append, h18, h3]
    omega

/-- C5: whenever an exception is raised inside the Retriever→Judge→Parser
pipeline of `process_row_async` (after the word-count pre-check), the call
still returns normally with the pair of the row index and an output mapping
that fills every configured output column with the same non-empty,
length-bounded string beginning with `"Processing error:"`; no exception
escapes to the batch orchestrator (presales.py lines 844-854; totality holds
by construction in this embedding, mirroring the source's `except` guard). -/
theorem C5_row_error_guard (index : Nat) (row : Row) (input_cols output_cols : List String)
    (outcome : SearchOutcome) (ai_response e : String) (cache : Cache)
    (hwc : 5 ≤ (pyWords (rowInputText row input_cols)).length) :
    process_row_async index row input_cols output_cols outcome ai_response (some e) cache
      = { idx := index
          outputs := output_cols.map (fun c => (c, processingErrorText e))
          cache := cache, searched := false, judged := false } ∧
    (∃ rest, processingErrorText e = "Processing error:" ++ rest) ∧
    processingErrorText e ≠ "" ∧
    (processingErrorText e).length ≤ 171 := by
  refine ⟨?_, processingErrorText_spec e⟩
  simp only [process_row_async]
  rw [if_neg (by omega)]

/-- Witness for C5 at a concrete six-word row with a raised exception. -/
theorem C5_row_error_guard_witness :
    process_row_async 3 [("REQUIREMENT", some "the quick brown fox jumps over")]
        ["REQUIREMENT"] ["TENDERER\x27S RESPONSE", "TENDERER\x27S REMARK"]
        SearchOutcome.noData "reply" (some "boom") []
      = { idx := 3
          outputs := ["TENDERER\x27S RESPONSE", "TENDERER\x27S REMARK"].map
            (fun c => (c, processingErrorText "boom"))
          cache := [], searched := false, judged := false } ∧
    (∃ rest, processingErrorText "boom" = "Processing error:" ++ rest) ∧
    processingErrorText "boom" ≠ "" ∧
    (processingErrorText "boom").length ≤ 171 :=
  C5_row_error_guard 3 [("REQUIREMENT", some "the quick brown fox jumps over")]
    ["REQUIREMENT"] ["TENDERER\x27S RESPONSE", "TENDERER\x27S REMARK"]
    SearchOutcome.noData "reply" "boom" [] (by decide)

/-- C9: a row whose concatenated non-empty input-field text has fewer than 5
words makes `process_row_async` return the marker
`"Insufficient content for analysis"` for every configured output column,
with the search cache unchanged and neither the web search nor the LLM
invoked (presales.py lines 690-704). -/
theorem C9_insufficient_content (index : Nat) (row : Row) (input_cols output_cols : List String)
    (outcome : SearchOutcome) (ai_response : String) (exc : Option String) (cache : Cache)
    (hwc : (pyWords (rowInputText row input_cols)).length < 5) :
    process_row_async index row input_cols output_cols outcome ai_response exc cache
      = { idx := index
          outputs := output_cols.map (fun c => (c, "Insufficient content for analysis"))
          cache := cache, searched := false, judged := false } := by
  simp only [process_row_async]
  rw [if_pos hwc]

/-- Witness for C9 at a concrete single-word row. -/
theorem C9_insufficient_content_witness :
    process_row_async 0 [("REQUIREMENT", some "short")] ["REQUIREMENT"]
        ["TENDERER\x27S RESPONSE", "TENDERER\x27S REMARK"]
        SearchOutcome.noData "reply" none []
      = { idx := 0
          outputs := ["TENDERER\x27S RESPONSE", "TENDERER\x27S REMARK"].map
            (fun c => (c, "Insufficient content for analysis"))
          cache := [], searched := false, judged := false } :=
  C9_insufficient_content 0 [("REQUIREMENT", some "short")] ["REQUIREMENT"]
    ["TENDERER\x27S RESPONSE", "TENDERER\x27S REMARK"]
    SearchOutcome.noData "reply" none [] (by decide)

/-! ### Claims C6, C7, C10: cache capacity, normalization, and error caching -/

/-- A cache hit returns the stored result, leaves the cache unchanged, and
performs no external retrieval. -/
theorem exa_search_hit {cache : Cache} {q : String} {r : EvidenceResult}
    (h : cacheLookup cache (get_cache_key q) = some r) (outcome : SearchOutcome) :
    exa_search q outcome cache = (r, cache, false) := by
  simp [exa_search, h]

/-- C6 counterexample: with the cache at its configured maximum of
`CACHE_SIZE` entries and a query whose normalized key is not cached, a failing
retrieval is computed **and its result is inserted anyway**, so the cache
grows to `CACHE_SIZE + 1` entries.  This refutes both the claim's "its result
is not inserted" and its "the cache entry count never exceeds the configured
maximum": only the successful branch checks the capacity bound
(presales.py line 327); the error branches insert unconditionally
(presales.py lines 150, 164, 184, 349). -/
theorem C6_counterexample :
    bigCache.length = CACHE_SIZE ∧
    cacheLookup bigCache (get_cache_key "new query") = none ∧
    (exa_search "new query" (SearchOutcome.exception "network down") bigCache).2.2 = true ∧
    CACHE_SIZE < (exa_search "new query" (SearchOutcome.exception "network down")
      bigCache).2.1.length := by
  have hlen : bigCache.length = CACHE_SIZE := by simp [bigCache]
  have hmiss : cacheLookup bigCache (get_cache_key "new query") = none := by decide
  refine ⟨hlen, hmiss, ?_, ?_⟩
  · simp [exa_search, hmiss]
  · simp only [exa_search, hmiss]
    rw [cacheInsert_of_miss _ hmiss]
    simp [List.length_append, hlen]

/-- C6 (amended): once the cache holds at least the configured maximum of
`CACHE_SIZE = 1000` entries, a **successful** search whose normalized key is
not cached is still computed but its result is not inserted, so successful
results never grow the cache past the maximum; failing retrievals, however,
bypass the capacity check and are inserted unconditionally, growing the cache
beyond the maximum (presales.py lines 327-330 and 341-350). -/
theorem C6_capacity_cutoff (q : String) (cache : Cache) (urls_found results : List String)
    (msg : String)
    (hmiss : cacheLookup cache (get_cache_key q) = none)
    (hfull : CACHE_SIZE ≤ cache.length) :
    exa_search q (SearchOutcome.success urls_found results) cache
      = (searchResultOfUrls urls_found results, cache, true) ∧
    (exa_search q (SearchOutcome.exception msg) cache).2.1.length = cache.length + 1 := by
  constructor
  · simp only [exa_search, hmiss]
    rw [if_neg (by omega)]
  · simp only [exa_search, hmiss]
    rw [cacheInsert_of_miss _ hmiss]
    simp

/-- Witness for the amended C6 at the concrete full cache `bigCache`. -/
theorem C6_capacity_cutoff_witness :
    exa_search "new query" (SearchOutcome.success ["https://u.example"] ["r"]) bigCache
      = (searchResultOfUrls ["https://u.example"] ["r"], bigCache, true) ∧
    (exa_search "new query" (SearchOutcome.exception "network down") bigCache).2.1.length
      = bigCache.length + 1 :=
  C6_capacity_cutoff "new query" bigCache ["https://u.example"] ["r"] "network down"
    (by decide) (by simp [bigCache])

/-- C7 counterexample: the two queries differ only in letter case and
whitespace (an internal double space versus a single one), yet the cache-key
normalization — which lowercases and strips only **leading and trailing**
whitespace — maps them to different keys, so the second sequential retrieval
misses the cache and performs its own underlying computation
(presales.py lines 92-94 and 124-130). -/
theorem C7_counterexample :
    specDiffersOnlyInCaseOrWhitespace "oracle  flexcube payments" "Oracle Flexcube Payments"
      = true ∧
    get_cache_key "oracle  flexcube payments" ≠ get_cache_key "Oracle Flexcube Payments" ∧
    (exa_search "Oracle Flexcube Payments" SearchOutcome.noData
        (exa_search "oracle  flexcube payments" SearchOutcome.noData []).2.1).2.2 = true :=
  ⟨by decide, by decide, by decide⟩

/-- C7 (amended): for two queries that differ only in letter case or in
leading/trailing whitespace (equal after `lower().strip()`), the cache-key
normalization maps them to the same key, and — provided the cache is below
its capacity bound at the first call, so the first result is inserted — a
second sequential retrieval with the other query returns the first call's
cached result without performing another underlying computation
(presales.py lines 92-94, 124-130, 327-330). -/
theorem C7_cache_idempotence (q1 q2 : String) (outcome1 : SearchOutcome) (cache : Cache)
    (hnorm : pyStrip (pyLower q1) = pyStrip (pyLower q2))
    (hcap : cache.length < CACHE_SIZE) :
    get_cache_key q1 = get_cache_key q2 ∧
    ∀ outcome2 : SearchOutcome,
      exa_search q2 outcome2 (exa_search q1 outcome1 cache).2.1
        = ((exa_search q1 outcome1 cache).1, (exa_search q1 outcome1 cache).2.1, false) := by
  have hkey : get_cache_key q1 = get_cache_key q2 := hnorm
  refine ⟨hkey, fun outcome2 => ?_⟩
  have hins := exa_search_inserted q1 outcome1 cache hcap
  rw [hkey] at hins
  exact exa_search_hit hins outcome2

/-- Witness for the amended C7 at concrete queries differing in case and
leading whitespace, on the empty cache. -/
theorem C7_cache_idempotence_witness :
    get_cache_key "  Oracle Flexcube" = get_cache_key "oracle flexcube" ∧
    exa_search "oracle flexcube" SearchOutcome.noData
        (exa_search "  Oracle Flexcube" SearchOutcome.noData []).2.1
      = ((exa_search "  Oracle Flexcube" SearchOutcome.noData []).1,
         (exa_search "  Oracle Flexcube" SearchOutcome.noData []).2.1, false) := by
  have h := C7_cache_idempotence "  Oracle Flexcube" "oracle flexcube"
    SearchOutcome.noData [] (by decide) (by decide)
  exact ⟨h.1, h.2 SearchOutcome.noData⟩

/-- C10: a failing retrieval attempt stores its `evidence_strength = "Error"`
result in the cache unconditionally — with no capacity check, unlike the
successful branch — and every subsequent retrieval call whose query
normalizes to the same key returns that cached error result without
re-attempting the external search (presales.py lines 341-350 and 124-130). -/
theorem C10_error_result_cached (q msg : String) (cache : Cache)
    (hmiss : cacheLookup cache (get_cache_key q) = none) :
    (exa_search q (SearchOutcome.exception msg) cache).1.evidence_strength = "Error" ∧
    (exa_search q (SearchOutcome.exception msg) cache).2.1.length = cache.length + 1 ∧
    cacheLookup (exa_search q (SearchOutcome.exception msg) cache).2.1 (get_cache_key q)
      = some (exa_search q (SearchOutcome.exception msg) cache).1 ∧
    ∀ (q2 : String) (outcome2 : SearchOutcome), get_cache_key q2 = get_cache_key q →
      exa_search q2 outcome2 (exa_search q (SearchOutcome.exception msg) cache).2.1
        = ((exa_search q (SearchOutcome.exception msg) cache).1,
           (exa_search q (SearchOutcome.exception msg) cache).2.1, false) := by
  refine ⟨?_, ?_, ?_, ?_⟩
  · simp [exa_search, hmiss]
  · simp only [exa_search, hmiss]
    rw [cacheInsert_of_miss _ hmiss]
    simp
  · simp only [exa_search, hmiss]
    rw [cacheInsert_of_miss _ hmiss]
    exact cacheLookup_append_self _ hmiss
  · intro q2 outcome2 hk
    have hl : cacheLookup (exa_search q (SearchOutcome.exception msg) cache).2.1
        (get_cache_key q2) = some (exa_search q (SearchOutcome.exception msg) cache).1 := by
      rw [hk]
      simp only [exa_search, hmiss]
      rw [cacheInsert_of_miss _ hmiss]
      exact cacheLookup_append_self _ hmiss
    exact exa_search_hit hl outcome2

/-- Witness for C10: a failed search on the empty cache, followed by a call
with a query normalizing to the same key. -/
theorem C10_error_result_cached_witness :
    (exa_search "q" (SearchOutcome.exception "boom") []).1.evidence_strength = "Error" ∧
    (exa_search "q" (SearchOutcome.exception "boom") []).2.1.length = ([] : Cache).length + 1 ∧
    cacheLookup (exa_search "q" (SearchOutcome.exception "boom") []).2.1 (get_cache_key "q")
      = some (exa_search "q" (SearchOutcome.exception "boom") []).1 ∧
    exa_search "Q " SearchOutcome.noData (exa_search "q" (SearchOutcome.exception "boom") []).2.1
      = ((exa_search "q" (SearchOutcome.exception "boom") []).1,
         (exa_search "q" (SearchOutcome.exception "boom") []).2.1, false) := by
  have h := C10_error_result_cached "q" "boom" [] rfl
  exact ⟨h.1, h.2.1, h.2.2.1, h.2.2.2 "Q " SearchOutcome.noData (by decide)⟩
